import Mathlib

set_option linter.unusedVariables false

/-!
Verification development for `scripts/generate-notebooks.py` (quantlearn).

The script builds Colab notebook structures (Python dicts) with three pure
helpers (`create_markdown_cell`, `create_code_cell`, `create_notebook`),
holds a fixed registry `NOTEBOOKS` of five zero-argument generator
functions, and a driver `main` that creates output directories and writes
each generated notebook as JSON (`json.dump(..., indent=2)`).

Python dict/list/string/int/bool/None values are embedded as the `PyVal`
inductive; dicts become insertion-ordered association lists, exactly as
Python preserves key insertion order. The filesystem is embedded as an
explicit state (`FS`) threaded through the driver, with an oracle
(`DiskEnv`) deciding which OS calls succeed, so that error propagation can
be stated.
-/

/-- A Python value as used by the script: strings, ints, bools, None,
lists, and insertion-ordered dicts with string keys. -/
inductive PyVal where
  | str (s : String)
  | num (n : Int)
  | bool (b : Bool)
  | null
  | arr (elems : List PyVal)
  | obj (entries : List (String × PyVal))

/-- Helper for Python's `source.split('\n')`: walk the characters, cutting
at every line feed; `acc` holds the (reversed) characters of the current
field. Python's `str.split` with an explicit separator never collapses or
drops separators, and yields `[""]` on the empty string. -/
def splitAux : List Char → List Char → List (List Char)
  | [], acc => [acc.reverse]
  | c :: cs, acc =>
    if c = '\n' then acc.reverse :: splitAux cs []
    else splitAux cs (c :: acc)

/-- Python's `source.split('\n')`. -/
def pySplitLines (s : String) : List String :=
  (splitAux s.data []).map String.mk

/-- Module constant `NBFORMAT_VERSION = 4`. -/
def NBFORMAT_VERSION : Int := 4

/-- Module constant `NBFORMAT_MINOR = 0`. -/
def NBFORMAT_MINOR : Int := 0

/-- `create_markdown_cell(source)`: a dict with keys `cell_type`,
`metadata` (empty dict), `source` (the line-split text). -/
def create_markdown_cell (source : String) : PyVal :=
  .obj [("cell_type", .str "markdown"),
        ("metadata", .obj []),
        ("source", .arr ((pySplitLines source).map .str))]

/-- `create_code_cell(source, hidden=False)`: a dict with keys
`cell_type`, `execution_count` (None), `metadata`, `outputs` (empty list),
`source`; when `hidden` the metadata dict gets the single entry
`"cellView": "form"`, otherwise it stays empty. The Python parameter
defaults to `False`; every call site here passes the flag explicitly. -/
def create_code_cell (source : String) (hidden : Bool) : PyVal :=
  .obj [("cell_type", .str "code"),
        ("execution_count", .null),
        ("metadata", if hidden then .obj [("cellView", .str "form")] else .obj []),
        ("outputs", .arr []),
        ("source", .arr ((pySplitLines source).map .str))]

/-- `create_notebook(cells, title)`: the full notebook dict. The `title`
argument is accepted but never used by the Python function body. -/
def create_notebook (cells : List PyVal) (title : String) : PyVal :=
  .obj [("nbformat", .num NBFORMAT_VERSION),
        ("nbformat_minor", .num NBFORMAT_MINOR),
        ("metadata", .obj
          [("kernelspec", .obj
             [("display_name", .str "Python 3"),
              ("language", .str "python"),
              ("name", .str "python3")]),
           ("language_info", .obj
             [("name", .str "python"),
              ("version", .str "3.10.0")]),
           ("colab", .obj
             [("provenance", .arr []),
              ("toc_visible", .bool true),
              ("authorship_tag", .str "QuantLearn")])]),
        ("cells", .arr cells)]

/-- Lookup in an insertion-ordered dict (first matching key wins, as in a
Python dict, whose keys are unique anyway). -/
def dictGet (entries : List (String × PyVal)) (k : String) : Option PyVal :=
  match entries with
  | [] => none
  | (k2, v) :: rest => if k2 = k then some v else dictGet rest k

/-- `jget v k`: field access `v[k]` on a dict value. -/
def jget (v : PyVal) (k : String) : Option PyVal :=
  match v with
  | .obj entries => dictGet entries k
  | _ => none

/-- Lower-case hexadecimal digit, as produced by Python's `"%04x"`. -/
def hexDigit (n : Nat) : Char :=
  if n < 10 then Char.ofNat (48 + n) else Char.ofNat (87 + n)

/-- A `\uXXXX` escape with four lower-case hex digits. -/
def uEscape (n : Nat) : String :=
  String.mk ['\\', 'u', hexDigit (n / 4096 % 16), hexDigit (n / 256 % 16),
             hexDigit (n / 16 % 16), hexDigit (n % 16)]

/-- Escaping of one character by Python's `json` encoder with the default
`ensure_ascii=True`: the two JSON specials, the five short escapes, and a
`\uXXXX` escape (surrogate pair above U+FFFF) for every other character
outside printable ASCII. -/
def jsonEscapeChar (c : Char) : String :=
  if c = '"' then "\\\""
  else if c = '\\' then "\\\\"
  else if c = Char.ofNat 8 then "\\b"
  else if c = Char.ofNat 12 then "\\f"
  else if c = '\n' then "\\n"
  else if c = Char.ofNat 13 then "\\r"
  else if c = Char.ofNat 9 then "\\t"
  else if c.toNat < 32 ∨ 126 < c.toNat then
    if 65535 < c.toNat then
      uEscape (55296 + (c.toNat - 65536) / 1024) ++ uEscape (56320 + (c.toNat - 65536) % 1024)
    else uEscape c.toNat
  else String.singleton c

/-- Escaping of a whole string by Python's `json` encoder. -/
def jsonEscape (s : String) : String :=
  String.join (s.data.map jsonEscapeChar)

/-- `n` spaces. -/
def indentSp (n : Nat) : String := String.mk (List.replicate n ' ')

mutual
/-- Serialization of a value exactly as `json.dump(v, f, indent=2)`:
key insertion order, `", "` key separator, `",\n"` item separator,
two-space indentation per level, `[]`/`\x7b\x7d` for empty containers. -/
def dumpVal (lvl : Nat) : PyVal → String
  | .str s => "\"" ++ jsonEscape s ++ "\""
  | .num n => toString n
  | .bool true => "true"
  | .bool false => "false"
  | .null => "null"
  | .arr [] => "[]"
  | .arr (x :: xs) =>
    "[\n" ++ indentSp (2 * (lvl + 1)) ++ dumpVal (lvl + 1) x ++
      dumpArr (lvl + 1) xs ++ "\n" ++ indentSp (2 * lvl) ++ "]"
  | .obj [] => "\x7b\x7d"
  | .obj ((k, v) :: kvs) =>
    "\x7b\n" ++ indentSp (2 * (lvl + 1)) ++ "\"" ++ jsonEscape k ++ "\": " ++
      dumpVal (lvl + 1) v ++ dumpObj (lvl + 1) kvs ++ "\n" ++ indentSp (2 * lvl) ++ "\x7d"

/-- Remaining items of a non-empty JSON array. -/
def dumpArr (lvl : Nat) : List PyVal → String
  | [] => ""
  | x :: xs => ",\n" ++ indentSp (2 * lvl) ++ dumpVal lvl x ++ dumpArr lvl xs

/-- Remaining items of a non-empty JSON object. -/
def dumpObj (lvl : Nat) : List (String × PyVal) → String
  | [] => ""
  | (k, v) :: kvs =>
    ",\n" ++ indentSp (2 * lvl) ++ "\"" ++ jsonEscape k ++ "\": " ++
      dumpVal lvl v ++ dumpObj lvl kvs
end

/-- `json.dump(notebook, f, indent=2)`: the exact byte content written for
one notebook. -/
def json_dump_indent2 (v : PyVal) : String := dumpVal 0 v
/-- Template generator `create_basics_returns_notebook`: Basics Module: Introduction to Returns. The cell texts are the source literals verbatim. -/
def create_basics_returns_notebook (_u : Unit) : PyVal :=
  let cells : List PyVal := [
    create_markdown_cell "\x23 Introduction to Returns\n\n**QuantLearn Module**: Math Foundations\n**Difficulty**: Beginner\n**Time**: \x7e15-20 minutes\n\nThis notebook covers the fundamental calculations every quant needs: simple returns, log returns, and cumulative returns.\n\n> **Run cells in order from top to bottom.** Each cell builds on the previous.",
    create_code_cell "\x23\x40title \xf0\u0178\u201c\xa6 Setup (Run this first)\nimport numpy as np\nimport pandas as pd\nimport matplotlib.pyplot as plt\n\n\x23 Set random seed for reproducibility\nnp.random.seed(42)\nplt.style.use(\x27seaborn-v0_8-whitegrid\x27)\nprint(\"\xe2\u0153\u201c Setup complete!\")" true,
    create_markdown_cell "\x23\x23 Simple Returns\n\nThe **simple return** (or arithmetic return) measures the percentage change in price:\n\n\x24\x24R_t = \\frac\x7bP_t - P_\x7bt-1\x7d\x7d\x7bP_\x7bt-1\x7d\x7d = \\frac\x7bP_t\x7d\x7bP_\x7bt-1\x7d\x7d - 1\x24\x24\n\nWhere:\n- \x24R_t\x24 = Return at time \x24t\x24\n- \x24P_t\x24 = Price at time \x24t\x24\n- \x24P_\x7bt-1\x7d\x24 = Price at time \x24t-1\x24",
    create_code_cell "\x23 Example: Calculate simple returns\nprices = np.array(\x5b100, 102, 99, 105, 103\x5d)\ndates = pd.date_range(\x272024-01-01\x27, periods=5, freq=\x27D\x27)\n\n\x23 Calculate simple returns\nsimple_returns = np.diff(prices) / prices\x5b:-1\x5d\n\n\x23 Display\ndf = pd.DataFrame(\x7b\n    \x27Date\x27: dates,\n    \x27Price\x27: prices,\n    \x27Return\x27: \x5bnp.nan\x5d + list(simple_returns)\n\x7d)\nprint(df.to_string(index=False))\nprint(f\"\\nMean daily return: \x7bnp.mean(simple_returns)*100:.2f\x7d%\")" false,
    create_markdown_cell "\x23\x23 Log Returns\n\n**Log returns** (or continuously compounded returns) have useful mathematical properties:\n\n\x24\x24r_t = \\ln\\left(\\frac\x7bP_t\x7d\x7bP_\x7bt-1\x7d\x7d\\right) = \\ln(P_t) - \\ln(P_\x7bt-1\x7d)\x24\x24\n\n**Key advantage**: Log returns are additive over time!\n\x24\x24r_\x7btotal\x7d = r_1 + r_2 + ... + r_n\x24\x24",
    create_code_cell "\x23 Calculate log returns\nlog_returns = np.log(prices\x5b1:\x5d / prices\x5b:-1\x5d)\n\n\x23 Compare simple vs log returns\ncomparison = pd.DataFrame(\x7b\n    \x27Simple Return\x27: simple_returns * 100,\n    \x27Log Return\x27: log_returns * 100\n\x7d, index=\x5b\x27Day 1\xe2\u2020\u20192\x27, \x27Day 2\xe2\u2020\u20193\x27, \x27Day 3\xe2\u2020\u20194\x27, \x27Day 4\xe2\u2020\u20195\x27\x5d)\n\nprint(\"Returns (in %):\")\nprint(comparison.round(2))\nprint(f\"\\nDifference is small for small returns, larger for big moves.\")" false,
    create_markdown_cell "\x23\x23 Exercise: Calculate Returns\n\n**Task**: Given the following price series, calculate both simple and log returns.\n\n\x60\x60\x60python\nprices = \x5b50, 52, 51, 55, 54, 58\x5d\n\x60\x60\x60\n\n1. Calculate the simple return for each day\n2. Calculate the log return for each day\n3. Compute the total return from start to finish using both methods",
    create_code_cell "\x23 Exercise: Your code here\nprices = np.array(\x5b50, 52, 51, 55, 54, 58\x5d)\n\n\x23 TODO: Calculate simple returns\nsimple_returns = None  \x23 Your code\n\n\x23 TODO: Calculate log returns\nlog_returns = None  \x23 Your code\n\n\x23 TODO: Calculate total return (start to finish)\ntotal_simple = None  \x23 Your code\ntotal_log = None  \x23 Your code\n\n\x23 Print results\nprint(f\"Simple returns: \x7bsimple_returns\x7d\")\nprint(f\"Log returns: \x7blog_returns\x7d\")\nprint(f\"Total simple return: \x7btotal_simple\x7d\")\nprint(f\"Total log return: \x7btotal_log\x7d\")" false,
    create_code_cell "\x23\x40title \xf0\u0178\u2019\xa1 Solution (click to reveal)\n\nprices = np.array(\x5b50, 52, 51, 55, 54, 58\x5d)\n\n\x23 Simple returns\nsimple_returns = np.diff(prices) / prices\x5b:-1\x5d\nprint(f\"Simple returns: \x7bnp.round(simple_returns * 100, 2)\x7d%\")\n\n\x23 Log returns\nlog_returns = np.log(prices\x5b1:\x5d / prices\x5b:-1\x5d)\nprint(f\"Log returns: \x7bnp.round(log_returns * 100, 2)\x7d%\")\n\n\x23 Total return\ntotal_simple = (prices\x5b-1\x5d - prices\x5b0\x5d) / prices\x5b0\x5d\ntotal_log = np.log(prices\x5b-1\x5d / prices\x5b0\x5d)\n\nprint(f\"\\nTotal simple return: \x7btotal_simple*100:.2f\x7d%\")\nprint(f\"Total log return: \x7btotal_log*100:.2f\x7d%\")\nprint(f\"Sum of log returns: \x7bnp.sum(log_returns)*100:.2f\x7d%\")  \x23 Should match!" true,
    create_code_cell "\x23 Verification\nprint(\"Checking your solution...\")\n\nexpected_simple_total = 0.16  \x23 16%\nexpected_log_total = np.log(58/50)\n\nif simple_returns is not None and np.isclose((prices\x5b-1\x5d-prices\x5b0\x5d)/prices\x5b0\x5d, 0.16, atol=0.01):\n    print(\"\xe2\u0153\u201c Simple return calculation correct!\")\nelse:\n    print(\"\xe2\u0153\u2014 Check your simple return calculation\")\n\nif log_returns is not None and np.isclose(np.sum(log_returns), expected_log_total, atol=0.01):\n    print(\"\xe2\u0153\u201c Log return calculation correct!\")\nelse:\n    print(\"\xe2\u0153\u2014 Check your log return calculation\")" false,
    create_markdown_cell "\x23\x23 Summary\n\nYou\x27ve learned:\n- **Simple returns**: \x24(P_t - P_\x7bt-1\x7d) / P_\x7bt-1\x7d\x24 - intuitive percentage change\n- **Log returns**: \x24\\ln(P_t / P_\x7bt-1\x7d)\x24 - additive over time\n- For small returns, simple \xe2\u2030\u02c6 log returns\n- For multi-period returns, log returns are easier to work with\n\n**Next**: Descriptive Statistics - learn to summarize return distributions."]
  create_notebook cells "Introduction to Returns"

/-- Template generator `create_basics_statistics_notebook`: Basics Module: Descriptive Statistics. The cell texts are the source literals verbatim. -/
def create_basics_statistics_notebook (_u : Unit) : PyVal :=
  let cells : List PyVal := [
    create_markdown_cell "\x23 Descriptive Statistics for Returns\n\n**QuantLearn Module**: Math Foundations\n**Difficulty**: Beginner\n**Time**: \x7e20 minutes\n\nLearn to calculate mean, volatility, skewness, and kurtosis - the essential statistics for understanding return distributions.",
    create_code_cell "\x23\x40title \xf0\u0178\u201c\xa6 Setup\nimport numpy as np\nimport pandas as pd\nimport matplotlib.pyplot as plt\nfrom scipy import stats\n\nnp.random.seed(42)\nplt.style.use(\x27seaborn-v0_8-whitegrid\x27)\nprint(\"\xe2\u0153\u201c Setup complete!\")" true,
    create_markdown_cell "\x23\x23 Mean and Volatility\n\n**Mean (Expected Return)**:\n\x24\x24\\mu = \\frac\x7b1\x7d\x7bn\x7d\\sum_\x7bi=1\x7d\x5e\x7bn\x7d r_i\x24\x24\n\n**Volatility (Standard Deviation)**:\n\x24\x24\\sigma = \\sqrt\x7b\\frac\x7b1\x7d\x7bn-1\x7d\\sum_\x7bi=1\x7d\x5e\x7bn\x7d (r_i - \\mu)\x5e2\x7d\x24\x24\n\nThese are the first two \"moments\" of a distribution.",
    create_code_cell "\x23 Generate sample returns (simulating daily stock returns)\nn_days = 252  \x23 One trading year\ndaily_returns = np.random.normal(0.0005, 0.02, n_days)  \x23 \x7e12.6% annual return, 32% vol\n\n\x23 Calculate statistics\nmean_return = np.mean(daily_returns)\nvolatility = np.std(daily_returns, ddof=1)  \x23 ddof=1 for sample std\n\n\x23 Annualize\nannual_return = mean_return * 252\nannual_vol = volatility * np.sqrt(252)\n\nprint(f\"Daily mean return: \x7bmean_return*100:.4f\x7d%\")\nprint(f\"Daily volatility: \x7bvolatility*100:.2f\x7d%\")\nprint(f\"\\nAnnualized return: \x7bannual_return*100:.2f\x7d%\")\nprint(f\"Annualized volatility: \x7bannual_vol*100:.2f\x7d%\")" false,
    create_markdown_cell "\x23\x23 Skewness and Kurtosis\n\n**Skewness** measures asymmetry:\n- Negative skew: Left tail is longer (more large losses)\n- Positive skew: Right tail is longer (more large gains)\n- Stock returns typically have negative skew\n\n**Kurtosis** measures tail thickness:\n- High kurtosis (\"fat tails\"): More extreme events than normal\n- Normal distribution has kurtosis = 3\n- Stock returns typically have high kurtosis",
    create_code_cell "\x23 Calculate higher moments\nskewness = stats.skew(daily_returns)\nkurtosis = stats.kurtosis(daily_returns)  \x23 Excess kurtosis (normal = 0)\n\nprint(f\"Skewness: \x7bskewness:.3f\x7d\")\nprint(f\"Excess Kurtosis: \x7bkurtosis:.3f\x7d\")\n\n\x23 Visualize\nfig, axes = plt.subplots(1, 2, figsize=(14, 4))\n\n\x23 Histogram\naxes\x5b0\x5d.hist(daily_returns, bins=50, density=True, alpha=0.7, color=\x27steelblue\x27)\naxes\x5b0\x5d.axvline(mean_return, color=\x27red\x27, linestyle=\x27--\x27, label=f\x27Mean: \x7bmean_return*100:.3f\x7d%\x27)\naxes\x5b0\x5d.set_xlabel(\x27Daily Return\x27)\naxes\x5b0\x5d.set_ylabel(\x27Density\x27)\naxes\x5b0\x5d.set_title(\x27Return Distribution\x27)\naxes\x5b0\x5d.legend()\n\n\x23 Normal Q-Q plot\nstats.probplot(daily_returns, dist=\"norm\", plot=axes\x5b1\x5d)\naxes\x5b1\x5d.set_title(\x27Q-Q Plot (vs Normal)\x27)\n\nplt.tight_layout()\nplt.show()" false,
    create_markdown_cell "\x23\x23 Exercise: Analyze Real-ish Returns\n\nCalculate the four moments for this return series and interpret the results.",
    create_code_cell "\x23 Sample data: Returns with fat tails\nreturns = np.array(\x5b\n    0.01, -0.02, 0.015, -0.01, 0.005, -0.08,  \x23 Note the -8% crash\n    0.02, 0.01, -0.015, 0.03, -0.01, 0.01,\n    0.005, -0.005, 0.02, -0.02, 0.015, -0.01,\n    0.01, -0.01, 0.025, -0.015, 0.01, -0.05   \x23 Note the -5% drop\n\x5d)\n\n\x23 TODO: Calculate the four moments\nmean = None      \x23 Your code\nvol = None       \x23 Your code\nskew = None      \x23 Your code\nkurt = None      \x23 Your code\n\nprint(f\"Mean: \x7bmean\x7d\")\nprint(f\"Volatility: \x7bvol\x7d\")\nprint(f\"Skewness: \x7bskew\x7d\")\nprint(f\"Kurtosis: \x7bkurt\x7d\")" false,
    create_code_cell "\x23\x40title \xf0\u0178\u2019\xa1 Solution\nreturns = np.array(\x5b\n    0.01, -0.02, 0.015, -0.01, 0.005, -0.08,\n    0.02, 0.01, -0.015, 0.03, -0.01, 0.01,\n    0.005, -0.005, 0.02, -0.02, 0.015, -0.01,\n    0.01, -0.01, 0.025, -0.015, 0.01, -0.05\n\x5d)\n\nmean = np.mean(returns)\nvol = np.std(returns, ddof=1)\nskew = stats.skew(returns)\nkurt = stats.kurtosis(returns)\n\nprint(f\"Mean: \x7bmean*100:.3f\x7d%\")\nprint(f\"Volatility: \x7bvol*100:.2f\x7d%\")\nprint(f\"Skewness: \x7bskew:.3f\x7d (negative = left tail)\")\nprint(f\"Excess Kurtosis: \x7bkurt:.3f\x7d (>0 = fat tails)\")\n\nprint(\"\\n\xf0\u0178\u201c\u0160 Interpretation:\")\nprint(\"- Negative skew: This series has larger downside moves\")\nprint(\"- Positive kurtosis: More extreme events than a normal distribution\")\nprint(\"- This is typical of real stock returns!\")" true,
    create_markdown_cell "\x23\x23 Summary\n\n\x7c Statistic \x7c Formula \x7c What It Measures \x7c\n\x7c-----------\x7c---------\x7c------------------\x7c\n\x7c Mean (\xce\xbc) \x7c Average of returns \x7c Expected return \x7c\n\x7c Volatility (\xcf\u0192) \x7c Std deviation \x7c Risk/uncertainty \x7c\n\x7c Skewness \x7c 3rd moment \x7c Asymmetry (tail direction) \x7c\n\x7c Kurtosis \x7c 4th moment \x7c Tail thickness \x7c\n\n**Key insight**: Real returns are NOT normally distributed - they have negative skew and fat tails. This is why risk management matters!\n\n**Next**: Correlation Analysis"]
  create_notebook cells "Descriptive Statistics"

/-- Template generator `create_backtesting_fundamentals_notebook`: Backtesting Module: Fundamentals. The cell texts are the source literals verbatim. -/
def create_backtesting_fundamentals_notebook (_u : Unit) : PyVal :=
  let cells : List PyVal := [
    create_markdown_cell "\x23 Backtesting Fundamentals\n\n**QuantLearn Module**: Backtesting \x26 Scientific Method\n**Difficulty**: Intermediate\n**Time**: \x7e30 minutes\n\nBuild your first backtest from scratch. Learn the core components: signals, positions, and performance measurement.",
    create_code_cell "\x23\x40title \xf0\u0178\u201c\xa6 Setup\nimport numpy as np\nimport pandas as pd\nimport matplotlib.pyplot as plt\n\nnp.random.seed(42)\nplt.style.use(\x27seaborn-v0_8-whitegrid\x27)\nprint(\"\xe2\u0153\u201c Setup complete!\")" true,
    create_markdown_cell "\x23\x23 The Backtesting Framework\n\nEvery backtest has these components:\n\n1. **Data**: Historical prices/returns\n2. **Signal**: Trading logic (when to buy/sell)\n3. **Position**: Current holdings based on signals\n4. **Returns**: Strategy returns = position \xc3\u2014 market returns\n5. **Metrics**: Evaluate performance (Sharpe, drawdown, etc.)\n\nLet\x27s build each piece.",
    create_code_cell "\x23 1. Generate sample price data\nn_days = 500\ndates = pd.date_range(\x272022-01-01\x27, periods=n_days, freq=\x27B\x27)\nreturns = np.random.normal(0.0003, 0.015, n_days)\nprices = 100 * np.cumprod(1 + returns)\n\ndf = pd.DataFrame(\x7b\n    \x27Date\x27: dates,\n    \x27Price\x27: prices,\n    \x27Return\x27: returns\n\x7d).set_index(\x27Date\x27)\n\nprint(\"Sample data:\")\nprint(df.head(10))\n\nplt.figure(figsize=(12, 4))\nplt.plot(df\x5b\x27Price\x27\x5d)\nplt.title(\x27Simulated Stock Price\x27)\nplt.ylabel(\x27Price\x27)\nplt.show()" false,
    create_markdown_cell "\x23\x23 2. Create a Signal\n\nLet\x27s implement a simple **moving average crossover** strategy:\n- Buy (signal = 1) when fast MA > slow MA\n- Sell (signal = -1) when fast MA < slow MA",
    create_code_cell "\x23 Calculate moving averages\nfast_period = 20\nslow_period = 50\n\ndf\x5b\x27MA_Fast\x27\x5d = df\x5b\x27Price\x27\x5d.rolling(fast_period).mean()\ndf\x5b\x27MA_Slow\x27\x5d = df\x5b\x27Price\x27\x5d.rolling(slow_period).mean()\n\n\x23 Generate signal: 1 = long, -1 = short, 0 = no position\ndf\x5b\x27Signal\x27\x5d = 0\ndf.loc\x5bdf\x5b\x27MA_Fast\x27\x5d > df\x5b\x27MA_Slow\x27\x5d, \x27Signal\x27\x5d = 1\ndf.loc\x5bdf\x5b\x27MA_Fast\x27\x5d < df\x5b\x27MA_Slow\x27\x5d, \x27Signal\x27\x5d = -1\n\n\x23 Visualize\nfig, axes = plt.subplots(2, 1, figsize=(14, 8), sharex=True)\n\n\x23 Price with MAs\naxes\x5b0\x5d.plot(df\x5b\x27Price\x27\x5d, label=\x27Price\x27, alpha=0.7)\naxes\x5b0\x5d.plot(df\x5b\x27MA_Fast\x27\x5d, label=f\x27\x7bfast_period\x7d-day MA\x27, linewidth=2)\naxes\x5b0\x5d.plot(df\x5b\x27MA_Slow\x27\x5d, label=f\x27\x7bslow_period\x7d-day MA\x27, linewidth=2)\naxes\x5b0\x5d.set_ylabel(\x27Price\x27)\naxes\x5b0\x5d.legend()\naxes\x5b0\x5d.set_title(\x27Price with Moving Averages\x27)\n\n\x23 Signal\naxes\x5b1\x5d.plot(df\x5b\x27Signal\x27\x5d, drawstyle=\x27steps-post\x27)\naxes\x5b1\x5d.set_ylabel(\x27Signal\x27)\naxes\x5b1\x5d.set_ylim(-1.5, 1.5)\naxes\x5b1\x5d.set_title(\x27Trading Signal (1=Long, -1=Short)\x27)\n\nplt.tight_layout()\nplt.show()" false,
    create_markdown_cell "\x23\x23 3. Calculate Strategy Returns\n\n**Key formula**:\n\x24\x24r_\x7bstrategy,t\x7d = position_\x7bt-1\x7d \\times r_\x7bmarket,t\x7d\x24\x24\n\nWe use yesterday\x27s position because we can\x27t see today\x27s return before trading.",
    create_code_cell "\x23 Position = previous day\x27s signal (avoid look-ahead bias!)\ndf\x5b\x27Position\x27\x5d = df\x5b\x27Signal\x27\x5d.shift(1)\n\n\x23 Strategy returns\ndf\x5b\x27Strategy_Return\x27\x5d = df\x5b\x27Position\x27\x5d * df\x5b\x27Return\x27\x5d\n\n\x23 Drop NaN rows (warmup period)\ndf_clean = df.dropna()\n\n\x23 Cumulative returns\ndf_clean\x5b\x27Cumulative_Market\x27\x5d = (1 + df_clean\x5b\x27Return\x27\x5d).cumprod()\ndf_clean\x5b\x27Cumulative_Strategy\x27\x5d = (1 + df_clean\x5b\x27Strategy_Return\x27\x5d).cumprod()\n\n\x23 Plot\nplt.figure(figsize=(12, 5))\nplt.plot(df_clean\x5b\x27Cumulative_Market\x27\x5d, label=\x27Buy \x26 Hold\x27, alpha=0.7)\nplt.plot(df_clean\x5b\x27Cumulative_Strategy\x27\x5d, label=\x27MA Crossover Strategy\x27, linewidth=2)\nplt.ylabel(\x27Cumulative Return\x27)\nplt.title(\x27Strategy vs Buy \x26 Hold\x27)\nplt.legend()\nplt.show()" false,
    create_markdown_cell "\x23\x23 4. Performance Metrics",
    create_code_cell "def calculate_metrics(returns, periods_per_year=252):\n    \"\"\"Calculate key performance metrics.\"\"\"\n    \x23 Remove NaN\n    returns = returns.dropna()\n\n    \x23 Annualized return\n    total_return = (1 + returns).prod() - 1\n    n_years = len(returns) / periods_per_year\n    annual_return = (1 + total_return) ** (1/n_years) - 1\n\n    \x23 Annualized volatility\n    annual_vol = returns.std() * np.sqrt(periods_per_year)\n\n    \x23 Sharpe ratio (assuming 0% risk-free rate)\n    sharpe = annual_return / annual_vol if annual_vol > 0 else 0\n\n    \x23 Maximum drawdown\n    cumulative = (1 + returns).cumprod()\n    running_max = cumulative.cummax()\n    drawdown = (cumulative - running_max) / running_max\n    max_drawdown = drawdown.min()\n\n    return \x7b\n        \x27Annual Return\x27: f\"\x7bannual_return*100:.2f\x7d%\",\n        \x27Annual Volatility\x27: f\"\x7bannual_vol*100:.2f\x7d%\",\n        \x27Sharpe Ratio\x27: f\"\x7bsharpe:.2f\x7d\",\n        \x27Max Drawdown\x27: f\"\x7bmax_drawdown*100:.2f\x7d%\",\n        \x27Total Return\x27: f\"\x7btotal_return*100:.2f\x7d%\"\n    \x7d\n\n\x23 Compare strategy vs market\nprint(\"=== Strategy Performance ===\")\nfor k, v in calculate_metrics(df_clean\x5b\x27Strategy_Return\x27\x5d).items():\n    print(f\"\x7bk\x7d: \x7bv\x7d\")\n\nprint(\"\\n=== Buy \x26 Hold Performance ===\")\nfor k, v in calculate_metrics(df_clean\x5b\x27Return\x27\x5d).items():\n    print(f\"\x7bk\x7d: \x7bv\x7d\")" false,
    create_markdown_cell "\x23\x23 Exercise: Build Your Own Backtest\n\nImplement a **momentum strategy**:\n- If the 10-day return is positive, go long\n- If the 10-day return is negative, go short",
    create_code_cell "\x23 Exercise: Implement momentum strategy\n\x23 Use the same df DataFrame\n\n\x23 TODO: Calculate 10-day momentum (sum of last 10 returns, or just 10-day return)\nlookback = 10\ndf\x5b\x27Momentum\x27\x5d = None  \x23 Your code here\n\n\x23 TODO: Generate signal based on momentum\ndf\x5b\x27Mom_Signal\x27\x5d = None  \x23 Your code here\n\n\x23 TODO: Calculate strategy returns\ndf\x5b\x27Mom_Position\x27\x5d = None  \x23 Your code here\ndf\x5b\x27Mom_Return\x27\x5d = None  \x23 Your code here\n\n\x23 Print metrics\n\x23 calculate_metrics(df\x5b\x27Mom_Return\x27\x5d.dropna())" false,
    create_code_cell "\x23\x40title \xf0\u0178\u2019\xa1 Solution\n\n\x23 Calculate 10-day momentum\nlookback = 10\ndf\x5b\x27Momentum\x27\x5d = df\x5b\x27Return\x27\x5d.rolling(lookback).sum()\n\n\x23 Generate signal\ndf\x5b\x27Mom_Signal\x27\x5d = np.where(df\x5b\x27Momentum\x27\x5d > 0, 1, -1)\n\n\x23 Position and returns\ndf\x5b\x27Mom_Position\x27\x5d = df\x5b\x27Mom_Signal\x27\x5d.shift(1)\ndf\x5b\x27Mom_Return\x27\x5d = df\x5b\x27Mom_Position\x27\x5d * df\x5b\x27Return\x27\x5d\n\n\x23 Results\nprint(\"=== Momentum Strategy ===\")\nfor k, v in calculate_metrics(df\x5b\x27Mom_Return\x27\x5d.dropna()).items():\n    print(f\"\x7bk\x7d: \x7bv\x7d\")\n\n\x23 Plot\ndf_mom = df.dropna()\ndf_mom\x5b\x27Cumulative_Momentum\x27\x5d = (1 + df_mom\x5b\x27Mom_Return\x27\x5d).cumprod()\n\nplt.figure(figsize=(12, 5))\nplt.plot(df_mom\x5b\x27Cumulative_Market\x27\x5d, label=\x27Buy \x26 Hold\x27, alpha=0.7)\nplt.plot(df_mom\x5b\x27Cumulative_Strategy\x27\x5d, label=\x27MA Crossover\x27, alpha=0.7)\nplt.plot(df_mom\x5b\x27Cumulative_Momentum\x27\x5d, label=\x27Momentum\x27, linewidth=2)\nplt.legend()\nplt.title(\x27Strategy Comparison\x27)\nplt.show()" true,
    create_markdown_cell "\x23\x23 Summary\n\nYou\x27ve built a complete backtest with:\n1. **Data preparation**: Prices \xe2\u2020\u2019 Returns\n2. **Signal generation**: MA crossover logic\n3. **Position management**: Shift signals to avoid look-ahead\n4. **Performance measurement**: Sharpe, drawdown, returns\n\n**Key pitfall avoided**: We used \x60shift(1)\x60 to prevent look-ahead bias!\n\n**Next**: Common Pitfalls - learn about all the ways backtests can go wrong."]
  create_notebook cells "Backtesting Fundamentals"

/-- Template generator `create_strategies_trend_following_notebook`: Strategies Module: Trend Following. The cell texts are the source literals verbatim. -/
def create_strategies_trend_following_notebook (_u : Unit) : PyVal :=
  let cells : List PyVal := [
    create_markdown_cell "\x23 Trend Following Strategies\n\n**QuantLearn Module**: Strategy Types\n**Difficulty**: Intermediate\n**Time**: \x7e25 minutes\n\nLearn to build and backtest trend-following strategies using moving averages, breakouts, and momentum signals.",
    create_code_cell "\x23\x40title \xf0\u0178\u201c\xa6 Setup\nimport numpy as np\nimport pandas as pd\nimport matplotlib.pyplot as plt\n\nnp.random.seed(42)\nplt.style.use(\x27seaborn-v0_8-whitegrid\x27)\n\n\x23 Generate trending price data with regimes\ndef generate_trending_data(n_days=500):\n    dates = pd.date_range(\x272022-01-01\x27, periods=n_days, freq=\x27B\x27)\n\n    \x23 Create regime-switching returns\n    returns = \x5b\x5d\n    regime = 1  \x23 Start bullish\n    for i in range(n_days):\n        if np.random.random() < 0.02:  \x23 2% chance of regime switch\n            regime *= -1\n        drift = 0.001 * regime  \x23 Positive or negative drift\n        ret = np.random.normal(drift, 0.015)\n        returns.append(ret)\n\n    prices = 100 * np.cumprod(1 + np.array(returns))\n    return pd.DataFrame(\x7b\x27Date\x27: dates, \x27Price\x27: prices, \x27Return\x27: returns\x7d).set_index(\x27Date\x27)\n\ndf = generate_trending_data()\nprint(\"\xe2\u0153\u201c Setup complete!\")\nprint(f\"Generated \x7blen(df)\x7d days of price data\")" true,
    create_markdown_cell "\x23\x23 1. Moving Average Crossover\n\nThe classic trend-following approach:\n- **Fast MA** (e.g., 20-day) reacts quickly to price changes\n- **Slow MA** (e.g., 50-day) represents the longer-term trend\n- **Signal**: Go long when fast > slow, short when fast < slow",
    create_code_cell "\x23 MA Crossover Strategy\nfast_period = 20\nslow_period = 50\n\ndf\x5b\x27MA_Fast\x27\x5d = df\x5b\x27Price\x27\x5d.rolling(fast_period).mean()\ndf\x5b\x27MA_Slow\x27\x5d = df\x5b\x27Price\x27\x5d.rolling(slow_period).mean()\n\n\x23 Signal: 1 = long, -1 = short\ndf\x5b\x27MA_Signal\x27\x5d = np.where(df\x5b\x27MA_Fast\x27\x5d > df\x5b\x27MA_Slow\x27\x5d, 1, -1)\ndf\x5b\x27MA_Position\x27\x5d = df\x5b\x27MA_Signal\x27\x5d.shift(1)\ndf\x5b\x27MA_Return\x27\x5d = df\x5b\x27MA_Position\x27\x5d * df\x5b\x27Return\x27\x5d\n\n\x23 Visualize\nfig, axes = plt.subplots(2, 1, figsize=(14, 8), sharex=True)\n\naxes\x5b0\x5d.plot(df\x5b\x27Price\x27\x5d, alpha=0.7, label=\x27Price\x27)\naxes\x5b0\x5d.plot(df\x5b\x27MA_Fast\x27\x5d, label=f\x27\x7bfast_period\x7d-day MA\x27)\naxes\x5b0\x5d.plot(df\x5b\x27MA_Slow\x27\x5d, label=f\x27\x7bslow_period\x7d-day MA\x27)\naxes\x5b0\x5d.set_ylabel(\x27Price\x27)\naxes\x5b0\x5d.legend()\naxes\x5b0\x5d.set_title(\x27Moving Average Crossover Strategy\x27)\n\n\x23 Cumulative returns\ndf_clean = df.dropna()\ncum_market = (1 + df_clean\x5b\x27Return\x27\x5d).cumprod()\ncum_strategy = (1 + df_clean\x5b\x27MA_Return\x27\x5d).cumprod()\n\naxes\x5b1\x5d.plot(cum_market, label=\x27Buy \x26 Hold\x27, alpha=0.7)\naxes\x5b1\x5d.plot(cum_strategy, label=\x27MA Crossover\x27, linewidth=2)\naxes\x5b1\x5d.set_ylabel(\x27Cumulative Return\x27)\naxes\x5b1\x5d.legend()\n\nplt.tight_layout()\nplt.show()" false,
    create_markdown_cell "\x23\x23 2. Breakout Strategy\n\nTrade when price breaks above/below recent high/low:\n- **Donchian Channel**: N-day high and low\n- **Breakout signal**: Long on new high, short on new low",
    create_code_cell "\x23 Breakout Strategy (Donchian Channel)\nlookback = 20\n\ndf\x5b\x27High_N\x27\x5d = df\x5b\x27Price\x27\x5d.rolling(lookback).max()\ndf\x5b\x27Low_N\x27\x5d = df\x5b\x27Price\x27\x5d.rolling(lookback).min()\n\n\x23 Signal: breakout above high = long, below low = short\ndf\x5b\x27Breakout_Signal\x27\x5d = 0\ndf.loc\x5bdf\x5b\x27Price\x27\x5d >= df\x5b\x27High_N\x27\x5d.shift(1), \x27Breakout_Signal\x27\x5d = 1\ndf.loc\x5bdf\x5b\x27Price\x27\x5d <= df\x5b\x27Low_N\x27\x5d.shift(1), \x27Breakout_Signal\x27\x5d = -1\n\n\x23 Forward fill signal (hold position)\ndf\x5b\x27Breakout_Signal\x27\x5d = df\x5b\x27Breakout_Signal\x27\x5d.replace(0, np.nan).ffill().fillna(0)\ndf\x5b\x27Breakout_Position\x27\x5d = df\x5b\x27Breakout_Signal\x27\x5d.shift(1)\ndf\x5b\x27Breakout_Return\x27\x5d = df\x5b\x27Breakout_Position\x27\x5d * df\x5b\x27Return\x27\x5d\n\n\x23 Plot\nfig, ax = plt.subplots(figsize=(14, 5))\nax.plot(df\x5b\x27Price\x27\x5d, label=\x27Price\x27, alpha=0.7)\nax.plot(df\x5b\x27High_N\x27\x5d, \x27--\x27, color=\x27green\x27, alpha=0.5, label=f\x27\x7blookback\x7d-day High\x27)\nax.plot(df\x5b\x27Low_N\x27\x5d, \x27--\x27, color=\x27red\x27, alpha=0.5, label=f\x27\x7blookback\x7d-day Low\x27)\nax.legend()\nax.set_title(\x27Donchian Channel Breakout\x27)\nplt.show()" false,
    create_markdown_cell "\x23\x23 3. Momentum Strategy\n\nTrade based on recent performance:\n- Calculate N-day momentum (cumulative return)\n- Long if momentum > 0, short if < 0",
    create_code_cell "\x23 Momentum Strategy\nmomentum_period = 20\n\ndf\x5b\x27Momentum\x27\x5d = df\x5b\x27Price\x27\x5d.pct_change(momentum_period)\ndf\x5b\x27Mom_Signal\x27\x5d = np.where(df\x5b\x27Momentum\x27\x5d > 0, 1, -1)\ndf\x5b\x27Mom_Position\x27\x5d = df\x5b\x27Mom_Signal\x27\x5d.shift(1)\ndf\x5b\x27Mom_Return\x27\x5d = df\x5b\x27Mom_Position\x27\x5d * df\x5b\x27Return\x27\x5d\n\n\x23 Compare all strategies\ndf_compare = df.dropna()\n\nstrategies = \x7b\n    \x27Buy \x26 Hold\x27: (1 + df_compare\x5b\x27Return\x27\x5d).cumprod(),\n    \x27MA Crossover\x27: (1 + df_compare\x5b\x27MA_Return\x27\x5d).cumprod(),\n    \x27Breakout\x27: (1 + df_compare\x5b\x27Breakout_Return\x27\x5d).cumprod(),\n    \x27Momentum\x27: (1 + df_compare\x5b\x27Mom_Return\x27\x5d).cumprod()\n\x7d\n\nplt.figure(figsize=(14, 6))\nfor name, cum_ret in strategies.items():\n    plt.plot(cum_ret, label=name, linewidth=2 if name != \x27Buy \x26 Hold\x27 else 1)\nplt.ylabel(\x27Cumulative Return\x27)\nplt.title(\x27Trend Following Strategy Comparison\x27)\nplt.legend()\nplt.show()" false,
    create_markdown_cell "\x23\x23 Exercise: Build a Combined Trend Signal\n\nCreate a strategy that combines multiple trend signals:\n1. Go long only when ALL signals agree (MA, Breakout, Momentum all positive)\n2. Go short only when ALL signals agree (all negative)\n3. Stay flat when signals disagree",
    create_code_cell "\x23 Exercise: Combined trend signal\n\n\x23 TODO: Create combined signal\n\x23 Hint: Sum the three signals, only trade when \x7csum\x7c == 3\ndf\x5b\x27Combined_Signal\x27\x5d = None  \x23 Your code here\n\n\x23 TODO: Calculate strategy returns\ndf\x5b\x27Combined_Position\x27\x5d = None\ndf\x5b\x27Combined_Return\x27\x5d = None\n\n\x23 Compare to individual strategies\n\x23 ..." false,
    create_code_cell "\x23\x40title \xf0\u0178\u2019\xa1 Solution\n\n\x23 Sum signals: only trade when all 3 agree\nsignal_sum = df\x5b\x27MA_Signal\x27\x5d + df\x5b\x27Breakout_Signal\x27\x5d.fillna(0) + df\x5b\x27Mom_Signal\x27\x5d\n\ndf\x5b\x27Combined_Signal\x27\x5d = 0\ndf.loc\x5bsignal_sum == 3, \x27Combined_Signal\x27\x5d = 1   \x23 All bullish\ndf.loc\x5bsignal_sum == -3, \x27Combined_Signal\x27\x5d = -1  \x23 All bearish\n\x23 Otherwise stay flat (0)\n\ndf\x5b\x27Combined_Position\x27\x5d = df\x5b\x27Combined_Signal\x27\x5d.shift(1)\ndf\x5b\x27Combined_Return\x27\x5d = df\x5b\x27Combined_Position\x27\x5d * df\x5b\x27Return\x27\x5d\n\n\x23 Plot\ndf_final = df.dropna()\nplt.figure(figsize=(14, 6))\nplt.plot((1 + df_final\x5b\x27Return\x27\x5d).cumprod(), label=\x27Buy \x26 Hold\x27, alpha=0.7)\nplt.plot((1 + df_final\x5b\x27MA_Return\x27\x5d).cumprod(), label=\x27MA Crossover\x27, alpha=0.7)\nplt.plot((1 + df_final\x5b\x27Combined_Return\x27\x5d).cumprod(), label=\x27Combined Signal\x27, linewidth=2)\nplt.ylabel(\x27Cumulative Return\x27)\nplt.title(\x27Combined Trend Signal Performance\x27)\nplt.legend()\nplt.show()\n\n\x23 Stats\nprint(\"Combined Strategy Stats:\")\ncombined_rets = df_final\x5b\x27Combined_Return\x27\x5d\nprint(f\"Annual Return: \x7bcombined_rets.mean() * 252 * 100:.1f\x7d%\")\nprint(f\"Annual Vol: \x7bcombined_rets.std() * np.sqrt(252) * 100:.1f\x7d%\")\nprint(f\"Sharpe: \x7bcombined_rets.mean() / combined_rets.std() * np.sqrt(252):.2f\x7d\")\nprint(f\"Time in Market: \x7b(df_final\x5b\x27Combined_Signal\x27\x5d != 0).mean() * 100:.0f\x7d%\")" true,
    create_markdown_cell "\x23\x23 Summary\n\n\x7c Strategy \x7c Description \x7c Pros \x7c Cons \x7c\n\x7c----------\x7c-------------\x7c------\x7c------\x7c\n\x7c MA Crossover \x7c Fast MA vs Slow MA \x7c Simple, always in market \x7c Whipsaws in sideways markets \x7c\n\x7c Breakout \x7c Trade new highs/lows \x7c Catches big moves \x7c Many false breakouts \x7c\n\x7c Momentum \x7c Recent return direction \x7c Captures trends \x7c Vulnerable to reversals \x7c\n\x7c Combined \x7c Require agreement \x7c Fewer trades, higher conviction \x7c May miss opportunities \x7c\n\n**Key insight**: Trend following works in trending markets but suffers during range-bound periods. Consider regime filtering!\n\n**Next**: Mean Reversion strategies."]
  create_notebook cells "Trend Following Strategies"

/-- Template generator `create_strategies_mean_reversion_notebook`: Strategies Module: Mean Reversion. The cell texts are the source literals verbatim. -/
def create_strategies_mean_reversion_notebook (_u : Unit) : PyVal :=
  let cells : List PyVal := [
    create_markdown_cell "\x23 Mean Reversion Strategies\n\n**QuantLearn Module**: Strategy Types\n**Difficulty**: Intermediate\n**Time**: \x7e25 minutes\n\nLearn to build strategies that profit when prices return to their mean - the opposite of trend following.",
    create_code_cell "\x23\x40title \xf0\u0178\u201c\xa6 Setup\nimport numpy as np\nimport pandas as pd\nimport matplotlib.pyplot as plt\nfrom scipy import stats\n\nnp.random.seed(42)\nplt.style.use(\x27seaborn-v0_8-whitegrid\x27)\n\n\x23 Generate mean-reverting price data (Ornstein-Uhlenbeck process)\ndef generate_mean_reverting_data(n_days=500, mean=100, theta=0.1, sigma=2):\n    prices = \x5bmean\x5d\n    for _ in range(n_days - 1):\n        dp = theta * (mean - prices\x5b-1\x5d) + sigma * np.random.randn()\n        prices.append(prices\x5b-1\x5d + dp)\n\n    dates = pd.date_range(\x272022-01-01\x27, periods=n_days, freq=\x27B\x27)\n    prices = np.array(prices)\n    returns = np.diff(prices) / prices\x5b:-1\x5d\n\n    return pd.DataFrame(\x7b\n        \x27Price\x27: prices,\n        \x27Return\x27: \x5bnp.nan\x5d + list(returns)\n    \x7d, index=dates)\n\ndf = generate_mean_reverting_data()\nprint(\"\xe2\u0153\u201c Setup complete!\")" true,
    create_markdown_cell "\x23\x23 1. Bollinger Bands\n\nTrade when price deviates significantly from its moving average:\n- **Upper Band** = MA + 2\xcf\u0192\n- **Lower Band** = MA - 2\xcf\u0192\n- **Signal**: Buy at lower band, sell at upper band",
    create_code_cell "\x23 Bollinger Bands Strategy\nwindow = 20\nnum_std = 2\n\ndf\x5b\x27MA\x27\x5d = df\x5b\x27Price\x27\x5d.rolling(window).mean()\ndf\x5b\x27Std\x27\x5d = df\x5b\x27Price\x27\x5d.rolling(window).std()\ndf\x5b\x27Upper\x27\x5d = df\x5b\x27MA\x27\x5d + num_std * df\x5b\x27Std\x27\x5d\ndf\x5b\x27Lower\x27\x5d = df\x5b\x27MA\x27\x5d - num_std * df\x5b\x27Std\x27\x5d\n\n\x23 Z-score: how many std devs from mean\ndf\x5b\x27Z_Score\x27\x5d = (df\x5b\x27Price\x27\x5d - df\x5b\x27MA\x27\x5d) / df\x5b\x27Std\x27\x5d\n\n\x23 Signal: buy when below -2, sell when above +2\ndf\x5b\x27BB_Signal\x27\x5d = 0\ndf.loc\x5bdf\x5b\x27Z_Score\x27\x5d < -num_std, \x27BB_Signal\x27\x5d = 1   \x23 Oversold -> buy\ndf.loc\x5bdf\x5b\x27Z_Score\x27\x5d > num_std, \x27BB_Signal\x27\x5d = -1   \x23 Overbought -> sell\n\n\x23 Hold position until opposite signal\ndf\x5b\x27BB_Signal\x27\x5d = df\x5b\x27BB_Signal\x27\x5d.replace(0, np.nan).ffill().fillna(0)\n\n\x23 Calculate returns\ndf\x5b\x27BB_Position\x27\x5d = df\x5b\x27BB_Signal\x27\x5d.shift(1)\ndf\x5b\x27BB_Return\x27\x5d = df\x5b\x27BB_Position\x27\x5d * df\x5b\x27Return\x27\x5d\n\n\x23 Visualize\nfig, axes = plt.subplots(2, 1, figsize=(14, 8), sharex=True)\n\naxes\x5b0\x5d.plot(df\x5b\x27Price\x27\x5d, label=\x27Price\x27, alpha=0.8)\naxes\x5b0\x5d.plot(df\x5b\x27MA\x27\x5d, label=\x2720-day MA\x27, linewidth=2)\naxes\x5b0\x5d.fill_between(df.index, df\x5b\x27Lower\x27\x5d, df\x5b\x27Upper\x27\x5d, alpha=0.2, label=\x27Bollinger Bands\x27)\naxes\x5b0\x5d.legend()\naxes\x5b0\x5d.set_title(\x27Bollinger Bands Mean Reversion\x27)\n\naxes\x5b1\x5d.plot(df\x5b\x27Z_Score\x27\x5d, label=\x27Z-Score\x27)\naxes\x5b1\x5d.axhline(2, color=\x27red\x27, linestyle=\x27--\x27, alpha=0.5)\naxes\x5b1\x5d.axhline(-2, color=\x27green\x27, linestyle=\x27--\x27, alpha=0.5)\naxes\x5b1\x5d.axhline(0, color=\x27gray\x27, linestyle=\x27-\x27, alpha=0.3)\naxes\x5b1\x5d.set_ylabel(\x27Z-Score\x27)\naxes\x5b1\x5d.legend()\n\nplt.tight_layout()\nplt.show()" false,
    create_markdown_cell "\x23\x23 2. RSI (Relative Strength Index)\n\nMomentum oscillator that measures overbought/oversold conditions:\n\n\x24\x24RSI = 100 - \\frac\x7b100\x7d\x7b1 + RS\x7d\x24\x24\n\nWhere RS = Average Gain / Average Loss over N periods\n\n- **RSI > 70**: Overbought \xe2\u2020\u2019 Sell signal\n- **RSI < 30**: Oversold \xe2\u2020\u2019 Buy signal",
    create_code_cell "\x23 RSI Strategy\ndef calculate_rsi(prices, period=14):\n    delta = prices.diff()\n    gain = delta.where(delta > 0, 0)\n    loss = (-delta).where(delta < 0, 0)\n\n    avg_gain = gain.rolling(period).mean()\n    avg_loss = loss.rolling(period).mean()\n\n    rs = avg_gain / avg_loss\n    rsi = 100 - (100 / (1 + rs))\n    return rsi\n\ndf\x5b\x27RSI\x27\x5d = calculate_rsi(df\x5b\x27Price\x27\x5d, period=14)\n\n\x23 Signal: buy when oversold, sell when overbought\ndf\x5b\x27RSI_Signal\x27\x5d = 0\ndf.loc\x5bdf\x5b\x27RSI\x27\x5d < 30, \x27RSI_Signal\x27\x5d = 1   \x23 Oversold -> buy\ndf.loc\x5bdf\x5b\x27RSI\x27\x5d > 70, \x27RSI_Signal\x27\x5d = -1  \x23 Overbought -> sell\ndf\x5b\x27RSI_Signal\x27\x5d = df\x5b\x27RSI_Signal\x27\x5d.replace(0, np.nan).ffill().fillna(0)\n\ndf\x5b\x27RSI_Position\x27\x5d = df\x5b\x27RSI_Signal\x27\x5d.shift(1)\ndf\x5b\x27RSI_Return\x27\x5d = df\x5b\x27RSI_Position\x27\x5d * df\x5b\x27Return\x27\x5d\n\n\x23 Plot RSI\nfig, axes = plt.subplots(2, 1, figsize=(14, 6), sharex=True)\n\naxes\x5b0\x5d.plot(df\x5b\x27Price\x27\x5d)\naxes\x5b0\x5d.set_ylabel(\x27Price\x27)\naxes\x5b0\x5d.set_title(\x27Price with RSI Signals\x27)\n\naxes\x5b1\x5d.plot(df\x5b\x27RSI\x27\x5d, label=\x27RSI\x27)\naxes\x5b1\x5d.axhline(70, color=\x27red\x27, linestyle=\x27--\x27, label=\x27Overbought (70)\x27)\naxes\x5b1\x5d.axhline(30, color=\x27green\x27, linestyle=\x27--\x27, label=\x27Oversold (30)\x27)\naxes\x5b1\x5d.fill_between(df.index, 30, 70, alpha=0.1)\naxes\x5b1\x5d.set_ylabel(\x27RSI\x27)\naxes\x5b1\x5d.set_ylim(0, 100)\naxes\x5b1\x5d.legend()\n\nplt.tight_layout()\nplt.show()" false,
    create_markdown_cell "\x23\x23 Strategy Comparison",
    create_code_cell "\x23 Compare strategies\ndf_clean = df.dropna()\n\nfig, ax = plt.subplots(figsize=(14, 6))\n\nstrategies = \x7b\n    \x27Buy \x26 Hold\x27: (1 + df_clean\x5b\x27Return\x27\x5d).cumprod(),\n    \x27Bollinger Bands\x27: (1 + df_clean\x5b\x27BB_Return\x27\x5d).cumprod(),\n    \x27RSI\x27: (1 + df_clean\x5b\x27RSI_Return\x27\x5d).cumprod()\n\x7d\n\nfor name, cum_ret in strategies.items():\n    ax.plot(cum_ret, label=name, linewidth=2 if name != \x27Buy \x26 Hold\x27 else 1)\n\nax.set_ylabel(\x27Cumulative Return\x27)\nax.set_title(\x27Mean Reversion Strategy Comparison\x27)\nax.legend()\nplt.show()\n\n\x23 Print stats\nprint(\"\\nPerformance Metrics:\")\nprint(\"-\" * 50)\nfor name, strategy in \x5b(\x27Bollinger\x27, \x27BB_Return\x27), (\x27RSI\x27, \x27RSI_Return\x27)\x5d:\n    rets = df_clean\x5bstrategy\x5d\n    print(f\"\\n\x7bname\x7d:\")\n    print(f\"  Annual Return: \x7brets.mean() * 252 * 100:.1f\x7d%\")\n    print(f\"  Annual Vol: \x7brets.std() * np.sqrt(252) * 100:.1f\x7d%\")\n    print(f\"  Sharpe: \x7brets.mean() / rets.std() * np.sqrt(252):.2f\x7d\")" false,
    create_markdown_cell "\x23\x23 Exercise: Z-Score Mean Reversion\n\nBuild a simple z-score mean reversion strategy:\n1. Calculate the z-score of price vs 20-day MA\n2. Enter long when z < -1.5, exit when z > 0\n3. Enter short when z > 1.5, exit when z < 0",
    create_code_cell "\x23 Exercise: Z-Score strategy with exit rules\n\n\x23 TODO: Calculate z-score\nz_score = None  \x23 Your code\n\n\x23 TODO: Create signals with entry/exit logic\n\x23 This is trickier - you need to track the current position\ndf\x5b\x27ZS_Signal\x27\x5d = 0  \x23 Your code\n\n\x23 TODO: Calculate returns\ndf\x5b\x27ZS_Position\x27\x5d = None\ndf\x5b\x27ZS_Return\x27\x5d = None" false,
    create_code_cell "\x23\x40title \xf0\u0178\u2019\xa1 Solution\n\n\x23 Calculate z-score\nz_score = (df\x5b\x27Price\x27\x5d - df\x5b\x27Price\x27\x5d.rolling(20).mean()) / df\x5b\x27Price\x27\x5d.rolling(20).std()\n\n\x23 Entry and exit logic\nposition = 0\npositions = \x5b\x5d\n\nfor z in z_score:\n    if np.isnan(z):\n        positions.append(0)\n        continue\n\n    \x23 Entry signals\n    if z < -1.5 and position == 0:\n        position = 1  \x23 Enter long\n    elif z > 1.5 and position == 0:\n        position = -1  \x23 Enter short\n\n    \x23 Exit signals\n    elif position == 1 and z > 0:\n        position = 0  \x23 Exit long\n    elif position == -1 and z < 0:\n        position = 0  \x23 Exit short\n\n    positions.append(position)\n\ndf\x5b\x27ZS_Signal\x27\x5d = positions\ndf\x5b\x27ZS_Position\x27\x5d = df\x5b\x27ZS_Signal\x27\x5d.shift(1)\ndf\x5b\x27ZS_Return\x27\x5d = df\x5b\x27ZS_Position\x27\x5d * df\x5b\x27Return\x27\x5d\n\n\x23 Plot\ndf_zs = df.dropna()\nplt.figure(figsize=(14, 5))\nplt.plot((1 + df_zs\x5b\x27Return\x27\x5d).cumprod(), label=\x27Buy \x26 Hold\x27, alpha=0.7)\nplt.plot((1 + df_zs\x5b\x27BB_Return\x27\x5d).cumprod(), label=\x27Bollinger\x27, alpha=0.7)\nplt.plot((1 + df_zs\x5b\x27ZS_Return\x27\x5d).cumprod(), label=\x27Z-Score (with exits)\x27, linewidth=2)\nplt.legend()\nplt.title(\x27Z-Score Strategy with Entry/Exit Rules\x27)\nplt.show()\n\nprint(\"Z-Score Strategy Stats:\")\nrets = df_zs\x5b\x27ZS_Return\x27\x5d\nprint(f\"Annual Return: \x7brets.mean() * 252 * 100:.1f\x7d%\")\nprint(f\"Sharpe: \x7brets.mean() / rets.std() * np.sqrt(252):.2f\x7d\")\nprint(f\"Time in Market: \x7b(df_zs\x5b\x27ZS_Signal\x27\x5d != 0).mean() * 100:.0f\x7d%\")" true,
    create_markdown_cell "\x23\x23 Summary\n\n\x7c Strategy \x7c Entry Signal \x7c Exit Signal \x7c Best For \x7c\n\x7c----------\x7c--------------\x7c-------------\x7c----------\x7c\n\x7c Bollinger Bands \x7c Price hits band \x7c Opposite band \x7c Range-bound markets \x7c\n\x7c RSI \x7c RSI < 30 or > 70 \x7c RSI crosses 50 \x7c Identifying extremes \x7c\n\x7c Z-Score \x7c \x7cz\x7c > threshold \x7c z crosses zero \x7c Statistical approach \x7c\n\n**Key insight**: Mean reversion works when prices oscillate around a mean, but fails spectacularly in trending markets. Always know your market regime!\n\n**Next**: Advanced Quant Techniques"]
  create_notebook cells "Mean Reversion Strategies"
/-- The fixed registry `NOTEBOOKS`: module slug → ordered (lesson slug,
generator) pairs, in the source dict's insertion order. -/
def NOTEBOOKS : List (String × List (String × (Unit → PyVal))) :=
  [("basics",
     [("01-introduction-to-returns", create_basics_returns_notebook),
      ("02-descriptive-statistics", create_basics_statistics_notebook)]),
   ("backtesting",
     [("02-backtesting-fundamentals", create_backtesting_fundamentals_notebook)]),
   ("strategies",
     [("01-trend-following", create_strategies_trend_following_notebook),
      ("02-mean-reversion", create_strategies_mean_reversion_notebook)])]

/-- Oracle deciding which OS calls succeed, so that error propagation can
be stated; paths are component lists relative to the project root. -/
structure DiskEnv where
  canMkdir : List String → Bool
  canWrite : List String → Bool

/-- The environment in which every OS call succeeds. -/
def envOK : DiskEnv := ⟨fun _ => true, fun _ => true⟩

/-- Filesystem state: the set of existing directories and the files as
(path, byte content) pairs, most recently written first. -/
structure FS where
  dirs : List (List String)
  files : List (List String × String)
deriving DecidableEq

/-- The empty filesystem. -/
def FS.empty : FS := ⟨[], []⟩

/-- An error raised by an OS call (OSError / FileExistsError). -/
inductive FsError where
  | osError (path : List String)
  | fileExists (path : List String)
deriving DecidableEq

/-- Nonempty prefixes of a path, shortest first. -/
def pathPrefixes : List String → List (List String)
  | [] => []
  | x :: xs => [x] :: (pathPrefixes xs).map (fun p => x :: p)

/-- Record one directory as existing (no effect if already present). -/
def addDir (fs : FS) (d : List String) : FS :=
  if fs.dirs.contains d then fs else { fs with dirs := fs.dirs ++ [d] }

/-- `Path.mkdir(parents=…, exist_ok=…)`: fails if the oracle rejects the
call; an existing directory is an error exactly when `exist_ok` is false;
`parents=true` creates every missing ancestor, `parents=false` requires
the parent to exist. The script always calls it with both flags true. -/
def mkdir (env : DiskEnv) (fs : FS) (d : List String) (parents exist_ok : Bool) :
    Except FsError FS :=
  if env.canMkdir d = false then .error (.osError d)
  else if fs.dirs.contains d then
    if exist_ok then .ok fs else .error (.fileExists d)
  else if parents then .ok ((pathPrefixes d).foldl addDir fs)
  else if d.dropLast = [] ∨ fs.dirs.contains d.dropLast then .ok (addDir fs d)
  else .error (.osError d)

/-- `open(path, 'w')` followed by writing the full content: unconditional
overwrite of any existing file at that path. -/
def writeFileFS (fs : FS) (p : List String) (content : String) : FS :=
  { fs with files := (p, content) :: fs.files.filter (fun e => decide (e.1 ≠ p)) }

/-- The first loop of `main`: `module_dir.mkdir(parents=True, exist_ok=True)`
for every module of the registry. On an error the state reached so far is
kept and the error propagates. -/
def mkdirLoop (env : DiskEnv) (ndir : List String) :
    List (String × List (String × (Unit → PyVal))) → FS → FS × Except FsError Unit
  | [], fs => (fs, .ok ())
  | (m, _) :: rest, fs =>
    match mkdir env fs (ndir ++ [m]) true true with
    | .ok fs2 => mkdirLoop env ndir rest fs2
    | .error e => (fs, .error e)

/-- The inner generation loop of `main` over one module's lessons: call the
generator, serialize, write `ndir/module/lesson.ipynb`, append
`"module/lesson"` to the accumulator. A failing write raises, keeping the
files already written. -/
def writeEntries (env : DiskEnv) (ndir : List String) (m : String) :
    List (String × (Unit → PyVal)) → FS → List String → FS × Except FsError (List String)
  | [], fs, acc => (fs, .ok acc)
  | (slug, gen) :: rest, fs, acc =>
    let output_path := ndir ++ [m, slug ++ ".ipynb"]
    if env.canWrite output_path then
      writeEntries env ndir m rest
        (writeFileFS fs output_path (json_dump_indent2 (gen ())))
        (acc ++ [m ++ "/" ++ slug])
    else (fs, .error (.osError output_path))

/-- The outer generation loop of `main` over the registry's modules. -/
def writeLoop (env : DiskEnv) (ndir : List String) :
    List (String × List (String × (Unit → PyVal))) → FS → List String →
    FS × Except FsError (List String)
  | [], fs, acc => (fs, .ok acc)
  | (m, lessons) :: rest, fs, acc =>
    match writeEntries env ndir m lessons fs acc with
    | (fs2, .ok acc2) => writeLoop env ndir rest fs2 acc2
    | (fs2, .error e) => (fs2, .error e)

/-- The batch build (`generateAll(outputRoot)` of the design; the body of
`main` with the output root as a parameter): create every category
directory, then generate and write every notebook, returning the
accumulated `"module/lesson"` identifiers. -/
def generateAll (env : DiskEnv) (outputRoot : List String) (fs : FS) :
    FS × Except FsError (List String) :=
  match mkdirLoop env outputRoot NOTEBOOKS fs with
  | (fs1, .ok ()) => writeLoop env outputRoot NOTEBOOKS fs1 []
  | (fs1, .error e) => (fs1, .error e)

/-- `main()` (Lean reserves the name `main`, hence `mainEntry`): the
output root is `<project_root>/notebooks`. -/
def mainEntry (env : DiskEnv) (fs : FS) : FS × Except FsError (List String) :=
  generateAll env ["notebooks"] fs

/-! ## Spec-side constants and helper notions -/

/-- The fixed metadata record demanded by the design document (format
constants of its data-model section), written out from the spec's own
constants: kernel display name, language tag, kernel id, language version,
empty provenance, visible table of contents, authorship tag. -/
def fixedMetadata : PyVal :=
  .obj [("kernelspec", .obj
          [("display_name", .str "Python 3"),
           ("language", .str "python"),
           ("name", .str "python3")]),
        ("language_info", .obj
          [("name", .str "python"),
           ("version", .str "3.10.0")]),
        ("colab", .obj
          [("provenance", .arr []),
           ("toc_visible", .bool true),
           ("authorship_tag", .str "QuantLearn")])]

/-- Joining character lines back with line feeds; the inverse of the
split, used to state that the split loses nothing. -/
def joinLinesAux : List (List Char) → List Char
  | [] => []
  | [l] => l
  | l :: ls => l ++ '\n' :: joinLinesAux ls

/-- Joining lines back with line feeds. -/
def joinLines (ls : List String) : String :=
  String.mk (joinLinesAux (ls.map String.data))

/-! ## Helper lemmas -/

theorem splitAux_ne_nil (cs acc : List Char) : splitAux cs acc ≠ [] := by
  induction cs generalizing acc with
  | nil => simp [splitAux]
  | cons c cs ih =>
    simp only [splitAux]
    split
    · simp
    · exact ih _

theorem splitAux_length (cs acc : List Char) :
    (splitAux cs acc).length = cs.count '\n' + 1 := by
  induction cs generalizing acc with
  | nil => simp [splitAux]
  | cons c cs ih =>
    by_cases h : c = '\n'
    · subst h
      simp [splitAux, ih, List.count_cons]
    · simp [splitAux, h, ih, List.count_cons]

theorem pySplitLines_length (s : String) :
    (pySplitLines s).length = s.data.count '\n' + 1 := by
  simp [pySplitLines, splitAux_length]

theorem joinLinesAux_cons_ne_nil (l : List Char) (ls : List (List Char)) (h : ls ≠ []) :
    joinLinesAux (l :: ls) = l ++ '\n' :: joinLinesAux ls := by
  cases ls with
  | nil => exact absurd rfl h
  | cons a as => rfl

theorem joinLinesAux_splitAux (cs acc : List Char) :
    joinLinesAux (splitAux cs acc) = acc.reverse ++ cs := by
  induction cs generalizing acc with
  | nil => simp [splitAux, joinLinesAux]
  | cons c cs ih =>
    by_cases h : c = '\n'
    · subst h
      rw [splitAux, if_pos rfl, joinLinesAux_cons_ne_nil _ _ (splitAux_ne_nil _ _), ih]
      simp
    · rw [splitAux, if_neg h, ih]
      simp

theorem joinLines_pySplitLines (s : String) : joinLines (pySplitLines s) = s := by
  have hmap : ∀ ls : List (List Char), (ls.map String.mk).map String.data = ls := by
    intro ls
    induction ls with
    | nil => rfl
    | cons a as ih => exact congrArg (List.cons a) ih
  rw [joinLines, pySplitLines, hmap, joinLinesAux_splitAux]
  rfl

/-! ## Claims -/

/-- C3: `create_markdown_cell` splits its input on line-feed boundaries
into the cell's line sequence with no trimming, collapsing or escaping
(joining the lines back with line feeds restores the input exactly), its
block metadata is the empty record, and on "a\nb\n\nc" the line sequence
is exactly ["a", "b", "", "c"], the blank line preserved. -/
theorem create_markdown_cell_line_split :
    (∀ s : String, create_markdown_cell s =
      .obj [("cell_type", .str "markdown"), ("metadata", .obj []),
            ("source", .arr ((pySplitLines s).map .str))])
    ∧ (∀ s : String, joinLines (pySplitLines s) = s)
    ∧ pySplitLines "a\nb\n\nc" = ["a", "b", "", "c"] :=
  ⟨fun _ => rfl, joinLines_pySplitLines, by decide⟩

/-- C9: for every input text, the `source` line sequence of a markdown or
code cell has length one plus the number of line-feed characters of the
text, hence is never empty; in particular the empty string yields the
one-element sequence [""]. -/
theorem cell_source_line_count :
    (∀ s : String,
      jget (create_markdown_cell s) "source" = some (.arr ((pySplitLines s).map .str))
      ∧ (∀ hidden : Bool,
          jget (create_code_cell s hidden) "source" = some (.arr ((pySplitLines s).map .str)))
      ∧ (pySplitLines s).length = s.data.count '\n' + 1
      ∧ pySplitLines s ≠ [])
    ∧ pySplitLines "" = [""] := by
  refine ⟨fun s => ⟨rfl, fun _ => rfl, pySplitLines_length s, ?_⟩, by decide⟩
  intro h
  have := pySplitLines_length s
  rw [h] at this
  simp at this

/-- C4: `create_code_cell` with `hidden = true` carries the collapsed-view
marker `"cellView": "form"` in its metadata, empty outputs and an unset
(None) execution count; with `hidden = false` (the Python default) the
metadata is the empty record. -/
theorem create_code_cell_hidden_metadata :
    ∀ s : String,
      create_code_cell s true =
        .obj [("cell_type", .str "code"), ("execution_count", .null),
              ("metadata", .obj [("cellView", .str "form")]),
              ("outputs", .arr []),
              ("source", .arr ((pySplitLines s).map .str))]
      ∧ create_code_cell s false =
        .obj [("cell_type", .str "code"), ("execution_count", .null),
              ("metadata", .obj []),
              ("outputs", .arr []),
              ("source", .arr ((pySplitLines s).map .str))] :=
  fun _ => ⟨rfl, rfl⟩

/-- C5: the `title` argument of `create_notebook` has no effect on the
returned structure nor on its serialized form: two calls with the same
cells and different titles yield identical notebooks and identical bytes. -/
theorem create_notebook_title_independent :
    ∀ (cells : List PyVal) (t1 t2 : String),
      create_notebook cells t1 = create_notebook cells t2
      ∧ json_dump_indent2 (create_notebook cells t1) =
          json_dump_indent2 (create_notebook cells t2) :=
  fun _ _ _ => ⟨rfl, rfl⟩

/-- C10: `create_notebook` stores the given cell sequence unchanged in the
notebook's `cells` field: same length, same order, same cells. -/
theorem create_notebook_preserves_cells :
    ∀ (cells : List PyVal) (title : String),
      jget (create_notebook cells title) "cells" = some (.arr cells) :=
  fun _ _ => rfl

/-- C1: from an empty output tree, the batch build over the fixed registry
succeeds, returns exactly the five identifiers in registry order, and
writes exactly the five files `outputRoot/category/item.ipynb`, one per
registry entry (file list most recently written first). -/
theorem generateAll_end_to_end :
    (generateAll envOK ["out"] FS.empty).2 =
      .ok ["basics/01-introduction-to-returns", "basics/02-descriptive-statistics",
           "backtesting/02-backtesting-fundamentals", "strategies/01-trend-following",
           "strategies/02-mean-reversion"]
    ∧ (generateAll envOK ["out"] FS.empty).1.files.map Prod.fst =
      [["out", "strategies", "02-mean-reversion.ipynb"],
       ["out", "strategies", "01-trend-following.ipynb"],
       ["out", "backtesting", "02-backtesting-fundamentals.ipynb"],
       ["out", "basics", "02-descriptive-statistics.ipynb"],
       ["out", "basics", "01-introduction-to-returns.ipynb"]] :=
  ⟨rfl, rfl⟩

/-- C2: every generator of the fixed registry returns a notebook whose
format version is 4.0, whose metadata is exactly the fixed constant record
(kernel display name "Python 3", language "python", kernel id "python3",
language version "3.10.0", empty provenance, visible table of contents,
authorship tag "QuantLearn"), and whose cell sequence is non-empty. -/
theorem registry_notebooks_wellformed :
    ∀ (m : String) (lessons : List (String × (Unit → PyVal)))
      (slug : String) (gen : Unit → PyVal),
      (m, lessons) ∈ NOTEBOOKS → (slug, gen) ∈ lessons →
      jget (gen ()) "nbformat" = some (.num 4)
      ∧ jget (gen ()) "nbformat_minor" = some (.num 0)
      ∧ jget (gen ()) "metadata" = some fixedMetadata
      ∧ ∃ c cs, jget (gen ()) "cells" = some (.arr (c :: cs)) := by
  intro m lessons slug gen hm hl
  simp only [NOTEBOOKS, List.mem_cons, List.not_mem_nil, or_false, Prod.mk.injEq] at hm
  rcases hm with ⟨rfl, rfl⟩ | ⟨rfl, rfl⟩ | ⟨rfl, rfl⟩
  · simp only [List.mem_cons, List.not_mem_nil, or_false, Prod.mk.injEq] at hl
    rcases hl with ⟨rfl, rfl⟩ | ⟨rfl, rfl⟩
    · exact ⟨rfl, rfl, rfl, _, _, rfl⟩
    · exact ⟨rfl, rfl, rfl, _, _, rfl⟩
  · simp only [List.mem_cons, List.not_mem_nil, or_false, Prod.mk.injEq] at hl
    rcases hl with ⟨rfl, rfl⟩
    exact ⟨rfl, rfl, rfl, _, _, rfl⟩
  · simp only [List.mem_cons, List.not_mem_nil, or_false, Prod.mk.injEq] at hl
    rcases hl with ⟨rfl, rfl⟩ | ⟨rfl, rfl⟩
    · exact ⟨rfl, rfl, rfl, _, _, rfl⟩
    · exact ⟨rfl, rfl, rfl, _, _, rfl⟩

/-- Witness for C2 at the first registry entry. -/
theorem registry_notebooks_wellformed_witness :
    jget (create_basics_returns_notebook ()) "nbformat" = some (.num 4)
    ∧ jget (create_basics_returns_notebook ()) "nbformat_minor" = some (.num 0)
    ∧ jget (create_basics_returns_notebook ()) "metadata" = some fixedMetadata
    ∧ ∃ c cs, jget (create_basics_returns_notebook ()) "cells" = some (.arr (c :: cs)) :=
  registry_notebooks_wellformed "basics" _ "01-introduction-to-returns"
    create_basics_returns_notebook (List.mem_cons_self _ _) (List.mem_cons_self _ _)

/-! ## Driver characterization in the all-succeed environment -/

/-- The effect of one file write on the file list. -/
def applyWrite (l : List (List String × String)) (w : List String × String) :
    List (List String × String) :=
  w :: l.filter (fun e => decide (e.1 ≠ w.1))

/-- The effect of a sequence of writes on the file list. -/
def applyWrites (ws : List (List String × String)) (l : List (List String × String)) :
    List (List String × String) :=
  ws.foldl applyWrite l

/-- The (path, serialized content) pairs written for one module's lessons. -/
def lessonWrites (ndir : List String) (m : String)
    (lessons : List (String × (Unit → PyVal))) : List (List String × String) :=
  lessons.map fun e => (ndir ++ [m, e.1 ++ ".ipynb"], json_dump_indent2 (e.2 ()))

/-- The identifiers accumulated for one module. -/
def lessonIds (m : String) (lessons : List (String × (Unit → PyVal))) : List String :=
  lessons.map fun e => m ++ "/" ++ e.1

/-- All (path, serialized content) pairs written by the batch build. -/
def categoryWrites (ndir : List String)
    (entries : List (String × List (String × (Unit → PyVal)))) :
    List (List String × String) :=
  entries.flatMap fun me => lessonWrites ndir me.1 me.2

/-- All identifiers accumulated by the batch build. -/
def categoryIds (entries : List (String × List (String × (Unit → PyVal)))) : List String :=
  entries.flatMap fun me => lessonIds me.1 me.2

/-- Result of one `mkdir(parents=True, exist_ok=True)` call in the
all-succeed environment. -/
def mkdirRes (fs : FS) (d : List String) : FS :=
  if fs.dirs.contains d then fs else (pathPrefixes d).foldl addDir fs

/-- Result of the directory-creation loop in the all-succeed environment. -/
def dirsFold (ndir : List String)
    (entries : List (String × List (String × (Unit → PyVal)))) (fs : FS) : FS :=
  entries.foldl (fun a e => mkdirRes a (ndir ++ [e.1])) fs

theorem mkdir_envOK (fs : FS) (d : List String) :
    mkdir envOK fs d true true = .ok (mkdirRes fs d) := by
  simp only [mkdir, envOK, mkdirRes]
  split
  · simp_all
  · split <;> rfl

theorem mkdirLoop_envOK (ndir : List String)
    (entries : List (String × List (String × (Unit → PyVal)))) (fs : FS) :
    mkdirLoop envOK ndir entries fs = (dirsFold ndir entries fs, .ok ()) := by
  induction entries generalizing fs with
  | nil => rfl
  | cons e rest ih =>
    simp only [mkdirLoop, mkdir_envOK, dirsFold, List.foldl_cons]
    exact ih _

theorem addDir_files (fs : FS) (d : List String) : (addDir fs d).files = fs.files := by
  simp only [addDir]
  split <;> rfl

theorem addDir_mem (fs : FS) (d : List String) : d ∈ (addDir fs d).dirs := by
  simp only [addDir]
  split
  next h => simpa using h
  next h => simp

theorem addDir_mono (fs : FS) (d x : List String) (hx : x ∈ fs.dirs) :
    x ∈ (addDir fs d).dirs := by
  simp only [addDir]
  split
  · exact hx
  · simp [hx]

theorem foldl_addDir_files (l : List (List String)) (fs : FS) :
    (l.foldl addDir fs).files = fs.files := by
  induction l generalizing fs with
  | nil => rfl
  | cons a l ih => rw [List.foldl_cons, ih, addDir_files]

theorem foldl_addDir_mono (l : List (List String)) (fs : FS) (x : List String)
    (hx : x ∈ fs.dirs) : x ∈ (l.foldl addDir fs).dirs := by
  induction l generalizing fs with
  | nil => exact hx
  | cons a l ih => exact ih _ (addDir_mono _ _ _ hx)

theorem foldl_addDir_mem (l : List (List String)) (fs : FS) (x : List String)
    (hx : x ∈ l) : x ∈ (l.foldl addDir fs).dirs := by
  induction l generalizing fs with
  | nil => cases hx
  | cons a l ih =>
    rw [List.foldl_cons]
    rcases List.mem_cons.mp hx with rfl | hx2
    · exact foldl_addDir_mono _ _ _ (addDir_mem _ _)
    · exact ih _ hx2

theorem mem_pathPrefixes_self (d : List String) (hd : d ≠ []) : d ∈ pathPrefixes d := by
  induction d with
  | nil => exact absurd rfl hd
  | cons x xs ih =>
    cases xs with
    | nil => simp [pathPrefixes]
    | cons y ys =>
      simp only [pathPrefixes, List.mem_cons]
      right
      exact List.mem_map.mpr ⟨y :: ys, ih (by simp), rfl⟩

theorem mkdirRes_files (fs : FS) (d : List String) : (mkdirRes fs d).files = fs.files := by
  simp only [mkdirRes]
  split
  · rfl
  · exact foldl_addDir_files _ _

theorem mkdirRes_mem (fs : FS) (d : List String) (hd : d ≠ []) :
    d ∈ (mkdirRes fs d).dirs := by
  simp only [mkdirRes]
  split
  next h => simpa using h
  next h => exact foldl_addDir_mem _ _ _ (mem_pathPrefixes_self d hd)

theorem mkdirRes_mono (fs : FS) (d x : List String) (hx : x ∈ fs.dirs) :
    x ∈ (mkdirRes fs d).dirs := by
  simp only [mkdirRes]
  split
  · exact hx
  · exact foldl_addDir_mono _ _ _ hx

theorem mkdirRes_noop (fs : FS) (d : List String) (h : d ∈ fs.dirs) :
    mkdirRes fs d = fs := by
  simp only [mkdirRes]
  rw [if_pos (by simpa using h)]

theorem dirsFold_files (ndir : List String)
    (entries : List (String × List (String × (Unit → PyVal)))) (fs : FS) :
    (dirsFold ndir entries fs).files = fs.files := by
  induction entries generalizing fs with
  | nil => rfl
  | cons e rest ih => rw [dirsFold, List.foldl_cons, ← dirsFold, ih, mkdirRes_files]

theorem dirsFold_mono (ndir : List String)
    (entries : List (String × List (String × (Unit → PyVal)))) (fs : FS)
    (x : List String) (hx : x ∈ fs.dirs) : x ∈ (dirsFold ndir entries fs).dirs := by
  induction entries generalizing fs with
  | nil => exact hx
  | cons e rest ih => exact ih _ (mkdirRes_mono _ _ _ hx)

theorem dirsFold_mem (ndir : List String)
    (entries : List (String × List (String × (Unit → PyVal)))) (fs : FS)
    (m : String) (lessons : List (String × (Unit → PyVal)))
    (hm : (m, lessons) ∈ entries) : (ndir ++ [m]) ∈ (dirsFold ndir entries fs).dirs := by
  induction entries generalizing fs with
  | nil => cases hm
  | cons e rest ih =>
    rw [dirsFold, List.foldl_cons, ← dirsFold]
    rcases List.mem_cons.mp hm with rfl | hm2
    · exact dirsFold_mono _ _ _ _ (mkdirRes_mem _ _ (by simp))
    · exact ih _ hm2

theorem dirsFold_noop (ndir : List String)
    (entries : List (String × List (String × (Unit → PyVal)))) (fs : FS)
    (h : ∀ e ∈ entries, (ndir ++ [e.1]) ∈ fs.dirs) : dirsFold ndir entries fs = fs := by
  induction entries with
  | nil => rfl
  | cons e rest ih =>
    rw [dirsFold, List.foldl_cons, ← dirsFold,
        mkdirRes_noop _ _ (h e (List.mem_cons_self _ _))]
    exact ih fun e2 he2 => h e2 (List.mem_cons_of_mem _ he2)

theorem writeEntries_cons_envOK (ndir : List String) (m slug : String)
    (gen : Unit → PyVal) (rest : List (String × (Unit → PyVal))) (fs : FS)
    (acc : List String) :
    writeEntries envOK ndir m ((slug, gen) :: rest) fs acc =
      writeEntries envOK ndir m rest
        (writeFileFS fs (ndir ++ [m, slug ++ ".ipynb"]) (json_dump_indent2 (gen ())))
        (acc ++ [m ++ "/" ++ slug]) := rfl

theorem writeEntries_envOK (ndir : List String) (m : String)
    (lessons : List (String × (Unit → PyVal))) (fs : FS) (acc : List String) :
    writeEntries envOK ndir m lessons fs acc =
      (⟨fs.dirs, applyWrites (lessonWrites ndir m lessons) fs.files⟩,
       .ok (acc ++ lessonIds m lessons)) := by
  induction lessons generalizing fs acc with
  | nil => simp [writeEntries, applyWrites, lessonWrites, lessonIds]
  | cons e rest ih =>
    rw [writeEntries_cons_envOK, ih]
    simp [writeFileFS, applyWrites, applyWrite, lessonWrites, lessonIds]

theorem writeLoop_envOK (ndir : List String)
    (entries : List (String × List (String × (Unit → PyVal)))) (fs : FS)
    (acc : List String) :
    writeLoop envOK ndir entries fs acc =
      (⟨fs.dirs, applyWrites (categoryWrites ndir entries) fs.files⟩,
       .ok (acc ++ categoryIds entries)) := by
  induction entries generalizing fs acc with
  | nil => simp [writeLoop, applyWrites, categoryWrites, categoryIds]
  | cons e rest ih =>
    show (match writeEntries envOK ndir e.1 e.2 fs acc with
          | (fs2, .ok acc2) => writeLoop envOK ndir rest fs2 acc2
          | (fs2, .error er) => (fs2, .error er)) = _
    rw [writeEntries_envOK]
    show writeLoop envOK ndir rest _ _ = _
    rw [ih]
    refine congrArg₂ Prod.mk (congrArg (FS.mk fs.dirs) ?_) (congrArg Except.ok ?_)
    · simp only [categoryWrites, List.flatMap_cons]
      exact (List.foldl_append _ _ _ _).symm
    · simp only [categoryIds, List.flatMap_cons]
      exact List.append_assoc _ _ _

theorem applyWrites_nil_filter (l : List (List String × String)) :
    l.filter (fun e => decide (e.1 ∉ ([] : List (List String × String)).map Prod.fst)) = l := by
  simp

theorem applyWrites_eq (ws : List (List String × String))
    (l : List (List String × String)) :
    applyWrites ws l =
      applyWrites ws [] ++ l.filter (fun e => decide (e.1 ∉ ws.map Prod.fst)) := by
  induction ws generalizing l with
  | nil => simp [applyWrites]
  | cons w ws ih =>
    show applyWrites ws (applyWrite l w) = applyWrites ws (applyWrite [] w) ++ _
    rw [ih (applyWrite l w), ih (applyWrite [] w), List.append_assoc]
    refine congrArg (applyWrites ws [] ++ ·) ?_
    show (w :: l.filter fun e => decide (e.1 ≠ w.1)).filter _ =
      (w :: ([] : List (List String × String)).filter
        (fun e => decide (e.1 ≠ w.1))).filter _ ++ _
    simp only [List.filter_nil, List.filter_cons, List.filter_filter]
    by_cases hw : w.1 ∈ List.map Prod.fst ws
    · simp only [hw, not_true_eq_false, decide_False, Bool.false_eq_true, if_false,
        List.nil_append]
      refine List.filter_congr fun e _ => ?_
      by_cases h1 : e.1 = w.1 <;> by_cases h2 : e.1 ∈ List.map Prod.fst ws <;>
        simp [h1, h2]
    · simp only [hw, not_false_eq_true, decide_True, if_true, List.cons_append,
        List.nil_append]
      refine congrArg (w :: ·) (List.filter_congr fun e _ => ?_)
      by_cases h1 : e.1 = w.1 <;> by_cases h2 : e.1 ∈ List.map Prod.fst ws <;>
        simp [h1, h2]

theorem mem_applyWrites (ws : List (List String × String))
    (l : List (List String × String)) (e : List String × String)
    (he : e ∈ applyWrites ws l) : e.1 ∈ ws.map Prod.fst ∨ e ∈ l := by
  induction ws generalizing l with
  | nil => exact .inr he
  | cons w ws ih =>
    rcases ih (applyWrite l w) he with h | h
    · exact .inl (by simp [h])
    · rcases List.mem_cons.mp h with rfl | h2
      · exact .inl (by simp)
      · exact .inr (List.mem_of_mem_filter h2)

theorem applyWrites_self_filter (ws : List (List String × String)) :
    (applyWrites ws []).filter (fun e => decide (e.1 ∉ ws.map Prod.fst)) = [] := by
  rw [List.filter_eq_nil_iff]
  intro e he
  rcases mem_applyWrites ws [] e he with h | h
  · simp [h]
  · cases h

theorem applyWrites_idem (ws : List (List String × String))
    (l : List (List String × String)) :
    applyWrites ws (applyWrites ws l) = applyWrites ws l := by
  rw [applyWrites_eq ws (applyWrites ws l), applyWrites_eq ws l,
      List.filter_append, applyWrites_self_filter, List.nil_append,
      List.filter_filter]
  refine congrArg (applyWrites ws [] ++ ·) (List.filter_congr fun e _ => ?_)
  exact Bool.and_self _

theorem generateAll_envOK (root : List String) (fs : FS) :
    generateAll envOK root fs =
      (⟨(dirsFold root NOTEBOOKS fs).dirs,
        applyWrites (categoryWrites root NOTEBOOKS) fs.files⟩,
       .ok (categoryIds NOTEBOOKS)) := by
  unfold generateAll
  rw [mkdirLoop_envOK]
  show writeLoop envOK root NOTEBOOKS (dirsFold root NOTEBOOKS fs) [] = _
  rw [writeLoop_envOK, dirsFold_files]
  simp

/-- C6: the batch build is deterministic and idempotent. Running it a
second time on the filesystem produced by a first run yields exactly the
same filesystem — byte-identical file contents, same directories — and
the same returned identifier sequence; the written bytes depend only on
the fixed registry (no clock, randomness or mutable state appears in the
embedding, so equality of the two results is exact). -/
theorem generateAll_idempotent :
    ∀ fs : FS,
      generateAll envOK ["out"] (generateAll envOK ["out"] fs).1 =
        generateAll envOK ["out"] fs := by
  intro fs
  rw [generateAll_envOK ["out"] fs, generateAll_envOK]
  dsimp only
  rw [applyWrites_idem]
  have hD : ∀ e ∈ NOTEBOOKS,
      (["out"] ++ [e.1]) ∈
        (FS.mk (dirsFold ["out"] NOTEBOOKS fs).dirs
          (applyWrites (categoryWrites ["out"] NOTEBOOKS) fs.files)).dirs :=
    fun e he => dirsFold_mem _ _ _ e.1 e.2 he
  rw [dirsFold_noop _ _ _ hD]

/-- C7: directory creation is idempotent: a pre-existing directory is
never an error (the script passes `exist_ok=True`), after the batch build
every category of the registry has its subdirectory under the output
root, and the batch build succeeds when run twice in a row from any
starting filesystem — in particular against a pre-existing, non-empty
output tree. -/
theorem generateAll_mkdir_idempotent :
    ∀ fs : FS,
      (∀ d, d ∈ fs.dirs → mkdir envOK fs d true true = .ok fs)
      ∧ (generateAll envOK ["out"] fs).2 = .ok (categoryIds NOTEBOOKS)
      ∧ (generateAll envOK ["out"] (generateAll envOK ["out"] fs).1).2 =
          .ok (categoryIds NOTEBOOKS)
      ∧ (∀ m lessons, (m, lessons) ∈ NOTEBOOKS →
          ["out", m] ∈ (generateAll envOK ["out"] fs).1.dirs) := by
  intro fs
  refine ⟨?_, ?_, ?_, ?_⟩
  · intro d hd
    rw [mkdir_envOK, mkdirRes_noop _ _ hd]
  · rw [generateAll_envOK]
  · rw [generateAll_envOK]
  · intro m lessons hm
    rw [generateAll_envOK]
    exact dirsFold_mem _ _ _ _ _ hm

/-- Witness for C7 on a pre-existing, non-empty output tree. -/
theorem generateAll_mkdir_idempotent_witness :
    mkdir envOK ⟨[["out"], ["out", "basics"]], [(["out", "basics", "stale.txt"], "old")]⟩
        ["out", "basics"] true true =
      .ok ⟨[["out"], ["out", "basics"]], [(["out", "basics", "stale.txt"], "old")]⟩
    ∧ (generateAll envOK ["out"]
        ⟨[["out"], ["out", "basics"]], [(["out", "basics", "stale.txt"], "old")]⟩).2 =
      .ok (categoryIds NOTEBOOKS)
    ∧ ["out", "basics"] ∈ (generateAll envOK ["out"]
        ⟨[["out"], ["out", "basics"]], [(["out", "basics", "stale.txt"], "old")]⟩).1.dirs :=
  ⟨(generateAll_mkdir_idempotent _).1 _ (by simp),
   (generateAll_mkdir_idempotent _).2.1,
   (generateAll_mkdir_idempotent _).2.2.2 "basics" _ (List.mem_cons_self _ _)⟩

deriving instance DecidableEq for Except

/-- The five output file paths under "out", in registry order. -/
def entryPaths : List (List String) :=
  (categoryWrites ["out"] NOTEBOOKS).map Prod.fst

/-- The category slugs, in registry order. -/
def categoryNames : List String := NOTEBOOKS.map Prod.fst

/-- Environment in which exactly the write of the given path fails. -/
def envFailWrite (p : List String) : DiskEnv :=
  ⟨fun _ => true, fun q => decide (q ≠ p)⟩

/-- Environment in which exactly the creation of the given directory fails. -/
def envFailMkdir (d : List String) : DiskEnv :=
  ⟨fun q => decide (q ≠ d), fun _ => true⟩

/-- Counterexample to C8 as stated, for directory-creation errors: fail
the creation of "out/strategies", the directory of the fourth registry
entry (index k = 3). The run terminates with that error, but the files of
the entries before index 3 are not on disk — no file at all has been
written, because the script creates every category directory before it
writes any file. -/
theorem generateAll_error_counterexample :
    (generateAll (envFailMkdir ["out", "strategies"]) ["out"] FS.empty).2 =
      .error (.osError ["out", "strategies"])
    ∧ (generateAll (envFailMkdir ["out", "strategies"]) ["out"] FS.empty).1.files = []
    ∧ ¬ (["out", "basics", "01-introduction-to-returns.ipynb"] ∈
        (generateAll (envFailMkdir ["out", "strategies"]) ["out"]
          FS.empty).1.files.map Prod.fst) :=
  ⟨rfl, rfl, by decide⟩

/-- C8 amended: filesystem errors are not caught locally — they propagate
and terminate the run, leaving partial output with no rollback. A failing
write of the k-th registry entry's file leaves exactly the files of the
entries before k written and entry k and all later entries unwritten; a
failing directory creation happens in the upfront directory loop, before
any file is written, and leaves no file written at all. -/
theorem generateAll_error_propagation :
    (∀ k, k < 5 →
      (generateAll (envFailWrite (entryPaths.getD k [])) ["out"] FS.empty).2 =
        .error (.osError (entryPaths.getD k []))
      ∧ (generateAll (envFailWrite (entryPaths.getD k [])) ["out"]
          FS.empty).1.files.map Prod.fst = (entryPaths.take k).reverse)
    ∧ (∀ j, j < 3 →
      (generateAll (envFailMkdir (["out"] ++ [categoryNames.getD j ""])) ["out"]
          FS.empty).2 =
        .error (.osError (["out"] ++ [categoryNames.getD j ""]))
      ∧ (generateAll (envFailMkdir (["out"] ++ [categoryNames.getD j ""])) ["out"]
          FS.empty).1.files = []) := by
  constructor
  · decide
  · decide

/-- Witness for the amended C8: a failing write of the third entry's file
(k = 2) leaves exactly the first two files written; a failing creation of
the second category directory (j = 1) leaves no file written. -/
theorem generateAll_error_propagation_witness :
    (2 < 5
      ∧ (generateAll (envFailWrite (entryPaths.getD 2 [])) ["out"] FS.empty).2 =
          .error (.osError (entryPaths.getD 2 []))
      ∧ (generateAll (envFailWrite (entryPaths.getD 2 [])) ["out"]
          FS.empty).1.files.map Prod.fst = (entryPaths.take 2).reverse)
    ∧ (1 < 3
      ∧ (generateAll (envFailMkdir (["out"] ++ [categoryNames.getD 1 ""])) ["out"]
          FS.empty).2 =
          .error (.osError (["out"] ++ [categoryNames.getD 1 ""]))
      ∧ (generateAll (envFailMkdir (["out"] ++ [categoryNames.getD 1 ""])) ["out"]
          FS.empty).1.files = []) :=
  ⟨⟨by decide, (generateAll_error_propagation.1 2 (by decide)).1,
    (generateAll_error_propagation.1 2 (by decide)).2⟩,
   ⟨by decide, (generateAll_error_propagation.2 1 (by decide)).1,
    (generateAll_error_propagation.2 1 (by decide)).2⟩⟩
